import Mathlib

/-!
Verification development for the tfl-pi departures display.

Shallow embedding of:
- lib/api/tfl_client.py   (arrival parsing and the get_arrivals pipeline)
- lib/modules/tfl_departures.py  (update, 2-panel layout, row rendering)
- lib/display/renderer.py (canvas lifecycle, compose pass, drawing primitives)

Conventions of the embedding:
- pixel geometry is Int; the Python floor division a // b is Int.fdiv, and
  int(a / b) (float division truncated toward zero) is Int.tdiv;
- Python dictionaries read with dict.get are structures with Option fields
  where a key can genuinely be absent, plain fields where the producer
  always writes the key;
- text metrics (PIL ImageDraw.textbbox with a loaded font) are external to
  the program and appear as an explicit measure parameter;
- network transport (requests) is external and appears as an Except value:
  either the decoded JSON list or a raised transport error;
- PIL drawing calls are recorded as DrawOp values: a fresh canvas carries no
  ops (every pixel still background 255), each primitive appends one op.
-/

namespace TflPi

/-- Python list slicing l[:stop], including negative stop values
(l[:-k] keeps everything but the last k elements). -/
def pySliceTo (l : List α) (stop : Int) : List α :=
  if 0 ≤ stop then l.take stop.toNat else l.take (l.length - (-stop).toNat)

/-- Length of pySliceTo as a function of the input length. -/
def pySliceLen (len : Nat) (stop : Int) : Nat :=
  if 0 ≤ stop then min stop.toNat len else len - (-stop).toNat

/-- Python str.lower(), embedded as a character map (ASCII data). -/
def pyLower (s : String) : String := String.mk (s.data.map Char.toLower)

/-- Raw arrival JSON object as consumed by TfLClient._parse_arrival
(tfl_client.py). Every field is optional, mirroring dict.get on the
decoded API response. -/
structure RawArrival where
  lineId : Option String := none
  lineName : Option String := none
  destinationName : Option String := none
  platformName : Option String := none
  direction : Option String := none
  timeToStation : Option Nat := none
  expectedArrival : Option String := none
  currentLocation : Option String := none
  towards : Option String := none
  modeName : Option String := none
  deriving Repr, DecidableEq

/-- Parsed arrival dictionary as produced by TfLClient._parse_arrival
(tfl_client.py lines 98-120). Parsing always writes every key;
minutes_until is kept as an Option because the consumer in
tfl_departures.py reads it with dict.get defaults. -/
structure ArrivalRecord where
  line_id : String
  line_name : String
  destination : String
  platform : String
  direction : String
  time_to_station : Nat
  minutes_until : Option Nat
  expected_arrival : String
  current_location : String
  towards : String
  mode : String
  deriving Repr, DecidableEq

/-- TfLClient._parse_arrival (tfl_client.py lines 98-120). A raw record
with no timeToStation key gets time_to_station 0 and hence 0 minutes. -/
def parseArrival (a : RawArrival) : ArrivalRecord where
  line_id := a.lineId.getD "Unknown"
  line_name := a.lineName.getD "Unknown"
  destination := a.destinationName.getD "Unknown"
  platform := a.platformName.getD ""
  direction := a.direction.getD ""
  time_to_station := a.timeToStation.getD 0
  minutes_until := some (a.timeToStation.getD 0 / 60)
  expected_arrival := a.expectedArrival.getD ""
  current_location := a.currentLocation.getD ""
  towards := a.towards.getD ""
  mode := a.modeName.getD "tube"

/-- One step of a stable ascending insertion: x is placed before the first
element whose key is not smaller than its own. -/
def pyInsert (key : α → Nat) (x : α) : List α → List α
  | [] => [x]
  | y :: ys => if key y < key x then y :: pyInsert key x ys else x :: y :: ys

/-- Python sorted(l, key=...) / list.sort(key=...): the stable ascending
sort by the key (any two stable ascending sorts agree extensionally, so
insertion sort is a faithful embedding of Timsort here). -/
def pySorted (key : α → Nat) (l : List α) : List α := l.foldr (pyInsert key) []

/-- Sort key used on raw arrivals in get_arrivals (tfl_client.py line 83):
x.get('timeToStation', 999999). -/
def rawTimeKey (a : RawArrival) : Nat := a.timeToStation.getD 999999

/-- Sort key used in TfLDeparturesModule.update (tfl_departures.py lines
113-121): d.get('minutes_until', 999). -/
def sortKeyD (d : ArrivalRecord) : Nat := d.minutes_until.getD 999

/-- Bus time filter in update (tfl_departures.py line 110): keep records
with d.get('minutes_until', 0) >= 2. -/
def busKeep (d : ArrivalRecord) : Bool := decide (2 ≤ d.minutes_until.getD 0)

/-- TfLClient.get_arrivals (tfl_client.py lines 38-96). The HTTP call is
abstracted as resp: either the decoded JSON list or a raised transport
error (caught by the except clauses, which return []). Python treats both
None and [] for line_ids as falsy, modelled as []; likewise direction None
is modelled as "". -/
def getArrivals (resp : Except String (List RawArrival)) (lineIds : List String)
    (direction : String) (maxResults : Nat) : List ArrivalRecord :=
  match resp with
  | .error _ => []
  | .ok arrivals =>
    let arrivals := if lineIds.isEmpty then arrivals else
      arrivals.filter fun a =>
        match a.lineId with
        | some s => lineIds.contains s
        | none => false
    let arrivals := if direction.isEmpty then arrivals else
      arrivals.filter fun a => pyLower (a.direction.getD "") == pyLower direction
    let arrivals := pySorted rawTimeKey arrivals
    let arrivals := arrivals.take maxResults
    arrivals.map parseArrival

/-- The cached self.departures dictionary of TfLDeparturesModule. -/
structure DeparturesState where
  tube : List ArrivalRecord
  bus : List ArrivalRecord
  deriving Repr, DecidableEq

/-- TfLDeparturesModule.update (tfl_departures.py lines 54-125). The four
fetched lists are the get_arrivals results for the four configured sources
(an unconfigured source, or a source returning no records, contributes the
empty list, which the extend-guard makes indistinguishable from not
fetching). The previous cached state is a parameter because update is a
method on self, but the source never reads it: self.departures is
overwritten wholesale. -/
def updateState (_prev : DeparturesState)
    (tubeWest tubeEast busWest busEast : List ArrivalRecord) :
    DeparturesState × Bool :=
  let allTube := tubeWest ++ tubeEast
  let allBus := (busWest ++ busEast).filter busKeep
  let tube := pySorted sortKeyD allTube
  let bus := pySorted sortKeyD allBus
  (⟨tube, bus⟩, decide (0 < tube.length) || decide (0 < bus.length))

/-- available_height = height - panel_header_height
(tfl_departures.py line 295). -/
def availOf (height phh : Int) : Int := height - phh

/-- max_rows = int(available_height / min_line_height) (line 299), with
min_line_height = departure_font_size + 20 (line 296). Python truncates
the float quotient toward zero, i.e. Int.tdiv. -/
def maxRowsOf (dfs : Nat) (height phh : Int) : Int :=
  Int.tdiv (availOf height phh) ((dfs : Int) + 20)

/-- num_rows = min(max_rows, len(departures)) (line 302). -/
def numRowsOf (dfs : Nat) (n : Nat) (height phh : Int) : Int :=
  min (maxRowsOf dfs height phh) (n : Int)

/-- line_height (lines 305-308): available_height // num_rows when
num_rows > 0, else min_line_height. -/
def lineHeightOf (dfs : Nat) (n : Nat) (height phh : Int) : Int :=
  if 0 < numRowsOf dfs n height phh then
    Int.fdiv (availOf height phh) (numRowsOf dfs n height phh)
  else (dfs : Int) + 20

/-- Total height of the rows actually laid out by the loop (lines 313-325):
each of the departures[:num_rows] rows occupies exactly line_height pixels
from its top edge to its bottom border. -/
def rowHeightsSum (dfs : Nat) (n : Nat) (height phh : Int) : Int :=
  (pySliceLen n (numRowsOf dfs n height phh) : Int) *
    lineHeightOf dfs n height phh

/-- A recorded PIL drawing call. Fill values: 0 ink, 255 background.
Font handles are not recorded: metrics live in the measure parameter. -/
inductive DrawOp where
  | line (x0 y0 x1 y1 : Int) (fill : Nat) (w : Nat)
  | rect (x0 y0 x1 y1 : Int) (outline : Nat) (fill : Option Nat) (w : Nat)
  | text (x y : Int) (s : String) (fill : Nat)
  deriving Repr, DecidableEq

/-- Module configuration of TfLDeparturesModule with the config.get
defaults (tfl_departures.py lines 34-46). -/
structure TfLConfig where
  station_name : String := "Station"
  header_font_size : Nat := 24
  section_header_font_size : Nat := 16
  departure_font_size : Nat := 13
  line_badge_font_size : Nat := 11
  deriving Repr, DecidableEq

/-- External text metric: bold flag, font size, text, giving the measured
pixel width (textbbox right minus left). -/
abbrev Meas := Bool → Nat → String → Nat

/-- The destination truncation loop of _render_departure_row (lines
399-404), on the character list, with an explicit fuel that the wrapper
instantiates with the string length (each pass drops one character, so the
length bounds the iteration count): while the string is non-empty and its
measured width exceeds max_dest_width, drop the last character. -/
def truncCharsFuel (mw : List Char → Int) (maxW : Int) : Nat → List Char → List Char
  | 0, s => s
  | fuel + 1, s =>
    if s.length = 0 then s
    else if mw s ≤ maxW then s
    else truncCharsFuel mw maxW fuel s.dropLast

/-- The truncation while-loop on strings (lines 399-404). -/
def truncateLoop (mw : String → Int) (maxW : Int) (s : String) : String :=
  String.mk (truncCharsFuel (fun cs => mw (String.mk cs)) maxW s.data.length s.data)

/-- Lines 399-407: run the truncation loop, then, if any character was
removed, replace the final three characters of what remains with a literal
ellipsis. -/
def truncateDest (mw : String → Int) (maxW : Int) (orig : String) : String :=
  let t := truncateLoop mw maxW orig
  if t.length < orig.length then t.dropRight 3 ++ "..." else t

/-- max_dest_width = width - badge_width - 150 - 2 * padding (line 398),
with badge_width = 70. -/
def maxDestWidth (width padding : Int) : Int := width - 70 - 150 - 2 * padding

/-- Time label formatting of the 2-panel layout (tfl_departures.py lines
411-417): 0 is "Due", 1 is "1 min", anything else is the decimal number
followed by " mins". -/
def formatMinutes (minutes : Nat) : String :=
  if minutes = 0 then "Due"
  else if minutes = 1 then toString minutes ++ " min"
  else toString minutes ++ " mins"

/-- TfLDeparturesModule._render_departure_row (lines 327-423): borders
(left, right, bottom, and top unless first row), line badge with inverted
label, truncated destination, right-aligned time label. -/
def renderDepartureRow (measure : Meas) (cfg : TfLConfig) (dep : ArrivalRecord)
    (x y width lineHeight padding : Int) (isFirstRow : Bool) : List DrawOp :=
  let borders : List DrawOp :=
    [.line x y x (y + lineHeight) 0 2,
     .line (x + width) y (x + width) (y + lineHeight) 0 2,
     .line x (y + lineHeight) (x + width) (y + lineHeight) 0 2]
    ++ (if isFirstRow then [] else [.line x y (x + width) y 0 2])
  let lineName := dep.line_name
  let minutes := dep.minutes_until.getD 0
  let contentX := x + padding
  let badgeWidth : Int := 70
  let badgeHeight : Int := 28
  let badgeY := y + Int.fdiv (lineHeight - badgeHeight) 2
  let badgeTextWidth : Int := measure true cfg.line_badge_font_size lineName
  let badgeTextX := contentX + Int.fdiv (badgeWidth - badgeTextWidth) 2
  let badgeTextY := badgeY + Int.fdiv badgeHeight 2 - ((cfg.line_badge_font_size / 2 : Nat) : Int)
  let destX := contentX + badgeWidth + 15
  let destY := y + Int.fdiv lineHeight 2 - ((cfg.departure_font_size / 2 : Nat) : Int)
  let destDrawn := truncateDest (fun s => (measure false cfg.departure_font_size s : Int))
    (maxDestWidth width padding) dep.destination
  let timeStr := formatMinutes minutes
  let timeWidth : Int := measure true (cfg.departure_font_size + 2) timeStr
  let timeX := x + width - timeWidth - padding
  let timeY := y + Int.fdiv lineHeight 2 - ((cfg.departure_font_size / 2 : Nat) : Int)
  borders ++
    [.rect contentX badgeY (contentX + badgeWidth) (badgeY + badgeHeight) 0 (some 0) 1,
     .text badgeTextX badgeTextY lineName 255,
     .text destX destY destDrawn 0,
     .text timeX timeY timeStr 0]

/-- The black title bar and centered white title of _render_panel (lines
262-277). -/
def panelHeaderOps (measure : Meas) (cfg : TfLConfig) (title : String)
    (x y width phh : Int) : List DrawOp :=
  let titleWidth : Int := measure true cfg.section_header_font_size title
  let titleX := x + Int.fdiv (width - titleWidth) 2
  let titleY := y + Int.fdiv phh 2 - ((cfg.section_header_font_size / 2 : Nat) : Int)
  [.rect x y (x + width) (y + phh) 0 (some 0) 1,
   .text titleX titleY title 255]

/-- TfLDeparturesModule._render_panel (lines 236-325): title bar, then
either the "No departures" placeholder (empty list only) or the
departures[:num_rows] rows at line_height pitch. -/
def renderPanel (measure : Meas) (cfg : TfLConfig) (departures : List ArrivalRecord)
    (title : String) (x y width height phh padding : Int) : List DrawOp :=
  let headerOps := panelHeaderOps measure cfg title x y width phh
  if departures.isEmpty then
    headerOps ++ [.text (x + padding) (y + phh + padding * 2) "No departures" 0]
  else
    let numRows := numRowsOf cfg.departure_font_size departures.length height phh
    let lineHeight := lineHeightOf cfg.departure_font_size departures.length height phh
    let rows := pySliceTo departures numRows
    headerOps ++ rows.enum.flatMap fun p =>
      renderDepartureRow measure cfg p.2 x (y + phh + (p.1 : Int) * lineHeight)
        width lineHeight padding (p.1 == 0)

/-- TfLDeparturesModule._render_header (lines 191-234). The wall clock is
external: the two strftime results are parameters. -/
def renderHeader (measure : Meas) (cfg : TfLConfig) (nowTime nowDate : String)
    (x y width height : Int) : List DrawOp :=
  let padding : Int := 10
  let textX := x + padding
  let textY := y + Int.fdiv height 2 - ((cfg.header_font_size / 2 : Nat) : Int)
  let datetimeText := nowTime ++ " " ++ nowDate
  let datetimeWidth : Int := measure true cfg.header_font_size datetimeText
  let datetimeX := x + width - datetimeWidth - padding
  [.text textX textY cfg.station_name 0,
   .text datetimeX textY datetimeText 0,
   .line x (y + height) (x + width) (y + height) 0 2]

/-- The drawing calls issued by the body of TfLDeparturesModule.render
(lines 135-184): header, left tube panel, right bus panel, divider. -/
def tflRenderOps (measure : Meas) (cfg : TfLConfig) (st : DeparturesState)
    (nowTime nowDate : String) (x y width height : Int) : List DrawOp :=
  let headerHeight : Int := 50
  let phh : Int := 30
  let padding : Int := 10
  let contentY := y + headerHeight
  let contentHeight := height - headerHeight
  let panelWidth := Int.fdiv width 2
  renderHeader measure cfg nowTime nowDate x y width headerHeight
    ++ renderPanel measure cfg st.tube "UNDERGROUND" x contentY panelWidth contentHeight phh padding
    ++ renderPanel measure cfg st.bus "BUSES" (x + panelWidth) contentY panelWidth contentHeight phh padding
    ++ [.line (x + panelWidth) contentY (x + panelWidth) (contentY + contentHeight) 0 3]

/-- Execute drawing calls against a fallible sink (PIL can raise): the
calls already issued stay on the canvas, the first failure aborts the rest
and surfaces the exception. -/
def runOps (sink : DrawOp → Option String) : List DrawOp → List DrawOp × Option String
  | [] => ([], none)
  | op :: rest =>
    match sink op with
    | some e => ([], some e)
    | none =>
      let r := runOps sink rest
      (op :: r.1, r.2)

/-- TfLDeparturesModule.render (lines 127-189): the whole body runs inside
try/except Exception, so whatever was drawn before a failure remains and
no exception leaves the method (it is only logged). -/
def tflRender (sink : DrawOp → Option String) (measure : Meas) (cfg : TfLConfig)
    (st : DeparturesState) (nowTime nowDate : String) (x y width height : Int) :
    List DrawOp × Option String :=
  let r := runOps sink (tflRenderOps measure cfg st nowTime nowDate x y width height)
  (r.1, none)

/-- The renderer canvas: fixed dimensions plus the drawing calls made so
far. PIL Image.new('1', (w, h), 255) starts all-background, so a canvas
with no ops shows background 255 at every pixel. -/
structure Canvas where
  width : Nat
  height : Nat
  ops : List DrawOp
  deriving Repr, DecidableEq

/-- Renderer.create_canvas (renderer.py lines 31-42): fresh all-background
surface of the configured dimensions. -/
def createCanvas (width height : Nat) : Canvas :=
  { width := width, height := height, ops := [] }

/-- A content provider as seen by the compose pass: the enabled flag and
the render method, which mutates the canvas and may raise (the returned
canvas keeps whatever was drawn before the failure). -/
structure PyModule where
  enabled : Bool
  render : Canvas → Canvas × Option String

/-- Renderer.render_modules (renderer.py lines 44-64): create a fresh
canvas, then for each module in order, if enabled, call render inside
try/except (a failure is logged and the loop continues); finally return
the canvas. -/
def renderModules (width height : Nat) (modules : List PyModule) : Canvas :=
  modules.foldl (fun c m => if m.enabled then (m.render c).1 else c)
    (createCanvas width height)

/-- Renderer instance state: configured dimensions plus the current canvas
(self.image and self.draw are None until create_canvas runs; both are set
together, so one Option models them). -/
structure RendererState where
  width : Nat
  height : Nat
  image : Option Canvas
  deriving Repr, DecidableEq

/-- Renderer.__init__ (renderer.py lines 18-29). -/
def rendererOf (width height : Nat) : RendererState :=
  { width := width, height := height, image := none }

/-- Renderer.create_canvas as a state transition on the instance. -/
def create_canvas (s : RendererState) : RendererState :=
  { s with image := some (createCanvas s.width s.height) }

/-- The canvas-not-ready RuntimeError of the drawing primitives. -/
inductive RenderError where
  | canvasNotReady
  deriving Repr, DecidableEq

/-- Renderer.draw_text (renderer.py lines 66-85). -/
def draw_text (s : RendererState) (text : String) (pos : Int × Int) (fill : Nat) :
    Except RenderError RendererState :=
  match s.image with
  | none => .error .canvasNotReady
  | some c => .ok { s with image := some { c with ops := c.ops ++ [.text pos.1 pos.2 text fill] } }

/-- Renderer.draw_line (renderer.py lines 87-106). -/
def draw_line (s : RendererState) (start stop : Int × Int) (fill : Nat) (w : Nat) :
    Except RenderError RendererState :=
  match s.image with
  | none => .error .canvasNotReady
  | some c => .ok { s with image := some { c with ops := c.ops ++ [.line start.1 start.2 stop.1 stop.2 fill w] } }

/-- Renderer.draw_rectangle (renderer.py lines 108-127). -/
def draw_rectangle (s : RendererState) (bbox : Int × Int × Int × Int)
    (outline : Nat) (fill : Option Nat) (w : Nat) :
    Except RenderError RendererState :=
  match s.image with
  | none => .error .canvasNotReady
  | some c => .ok { s with image := some { c with ops := c.ops ++ [.rect bbox.1 bbox.2.1 bbox.2.2.1 bbox.2.2.2 outline fill w] } }

/-- A concrete text metric for closed instances: every character 10 pixels
wide. -/
def cwMeas : Meas := fun _ _ s => 10 * s.length

/-- A concrete parsed arrival used in closed instances. -/
def sampleRecord : ArrivalRecord :=
  { line_id := "district", line_name := "District", destination := "Upminster",
    platform := "", direction := "outbound", time_to_station := 300,
    minutes_until := some 5, expected_arrival := "", current_location := "",
    towards := "", mode := "tube" }

/-- A raw arrival whose timeToStation key is absent. -/
def rawNoTime : RawArrival :=
  { lineName := some "District", destinationName := some "Upminster",
    direction := some "outbound" }

/-- A raw arrival due in 300 seconds (5 minutes). -/
def rawFiveMin : RawArrival :=
  { lineName := some "District", destinationName := some "Ealing Broadway",
    direction := some "outbound", timeToStation := some 300 }

/-- The module configuration with all defaults. -/
def defaultCfg : TfLConfig := {}

/-- Recognizer for the "No departures" placeholder text op. -/
def isNoDeparturesText (op : DrawOp) : Bool :=
  match op with
  | .text _ _ s _ => s == "No departures"
  | _ => false

/-! ### Helper lemmas about the stable sort and slicing -/

theorem length_pySliceTo (l : List α) (stop : Int) :
    (pySliceTo l stop).length = pySliceLen l.length stop := by
  unfold pySliceTo pySliceLen
  split <;> simp [List.length_take]

theorem pyInsert_perm (key : α → Nat) (x : α) (l : List α) :
    (pyInsert key x l).Perm (x :: l) := by
  induction l with
  | nil => simp [pyInsert]
  | cons y ys ih =>
    unfold pyInsert
    by_cases h : key y < key x
    · rw [if_pos h]
      exact (ih.cons y).trans (List.Perm.swap x y ys)
    · rw [if_neg h]

theorem pySorted_perm (key : α → Nat) (l : List α) : (pySorted key l).Perm l := by
  induction l with
  | nil => rfl
  | cons x xs ih =>
    exact (pyInsert_perm key x (pySorted key xs)).trans (ih.cons x)

theorem sorted_pyInsert (key : α → Nat) (x : α) {l : List α}
    (h : l.Sorted (fun a b => key a ≤ key b)) :
    (pyInsert key x l).Sorted (fun a b => key a ≤ key b) := by
  induction l with
  | nil => simp [pyInsert]
  | cons y ys ih =>
    rw [List.sorted_cons] at h
    unfold pyInsert
    by_cases hc : key y < key x
    · rw [if_pos hc, List.sorted_cons]
      refine ⟨?_, ih h.2⟩
      intro b hb
      rcases List.mem_cons.mp ((pyInsert_perm key x ys).mem_iff.mp hb) with rfl | hb2
      · exact Nat.le_of_lt hc
      · exact h.1 b hb2
    · rw [if_neg hc, List.sorted_cons]
      refine ⟨?_, List.sorted_cons.mpr h⟩
      intro b hb
      rcases List.mem_cons.mp hb with rfl | hb2
      · exact Nat.le_of_not_lt hc
      · exact Nat.le_trans (Nat.le_of_not_lt hc) (h.1 b hb2)

theorem sorted_pySorted (key : α → Nat) (l : List α) :
    (pySorted key l).Sorted (fun a b => key a ≤ key b) := by
  induction l with
  | nil => simp [pySorted]
  | cons x xs ih => exact sorted_pyInsert key x ih

theorem filter_pyInsert_of_eq (key : α → Nat) (k : Nat) (x : α) (l : List α)
    (hx : key x = k) :
    (pyInsert key x l).filter (fun a => key a == k) =
      x :: l.filter (fun a => key a == k) := by
  induction l with
  | nil => simp [pyInsert, List.filter, hx]
  | cons y ys ih =>
    unfold pyInsert
    by_cases hc : key y < key x
    · have hy : (key y == k) = false := by
        subst hx
        exact beq_eq_false_iff_ne.mpr (Nat.ne_of_lt hc)
      rw [if_pos hc]
      simp only [List.filter_cons, hy, ih]
      simp
    · rw [if_neg hc]
      simp [List.filter_cons, hx]

theorem filter_pyInsert_of_ne (key : α → Nat) (k : Nat) (x : α) (l : List α)
    (hx : key x ≠ k) :
    (pyInsert key x l).filter (fun a => key a == k) =
      l.filter (fun a => key a == k) := by
  induction l with
  | nil => simp [pyInsert, List.filter, beq_eq_false_iff_ne.mpr hx]
  | cons y ys ih =>
    unfold pyInsert
    by_cases hc : key y < key x
    · rw [if_pos hc]
      simp only [List.filter_cons, ih]
    · rw [if_neg hc]
      simp [List.filter_cons, beq_eq_false_iff_ne.mpr hx]

theorem filter_pySorted (key : α → Nat) (k : Nat) (l : List α) :
    (pySorted key l).filter (fun a => key a == k) =
      l.filter (fun a => key a == k) := by
  induction l with
  | nil => rfl
  | cons x xs ih =>
    show (pyInsert key x (pySorted key xs)).filter _ = _
    by_cases hx : key x = k
    · rw [filter_pyInsert_of_eq key k x _ hx, ih, List.filter_cons]
      simp [hx]
    · rw [filter_pyInsert_of_ne key k x _ hx, ih, List.filter_cons]
      simp [beq_eq_false_iff_ne.mpr hx]

/-! ### C1: exact-fill row layout -/

/-- C1 counterexample: with the default departure font size 13 (so
min_line_height 33), a panel of height 130 with title bar 30 (content
height H = 100) and 3 departures, num_rows is 3 (positive) but the rows
actually laid out total 3 * (100 // 3) = 99 pixels, not H = 100 — the
integer-division remainder is a one-pixel gap below the last row, which
the code does not absorb anywhere. -/
theorem c1_counterexample :
    0 < numRowsOf 13 3 130 30 ∧
      rowHeightsSum 13 3 130 30 ≠ availOf 130 30 := by decide

/-- C1 amended: whenever num_rows > 0, the rows laid out sum to
H - H % num_rows: never more than H (no overflow), but short of H by the
remainder H % num_rows, which is nonnegative and less than num_rows; the
sum equals H exactly if and only if num_rows divides H. -/
theorem c1_amended (dfs n : Nat) (height phh : Int)
    (h : 0 < numRowsOf dfs n height phh) :
    rowHeightsSum dfs n height phh =
        availOf height phh - availOf height phh % numRowsOf dfs n height phh ∧
      0 ≤ availOf height phh % numRowsOf dfs n height phh ∧
      availOf height phh % numRowsOf dfs n height phh < numRowsOf dfs n height phh ∧
      (rowHeightsSum dfs n height phh = availOf height phh ↔
        numRowsOf dfs n height phh ∣ availOf height phh) := by
  have hL : (0 : Int) < (dfs : Int) + 20 := by positivity
  have hmax : 0 < maxRowsOf dfs height phh := lt_of_lt_of_le h (min_le_left _ _)
  have hn : 0 < (n : Int) := lt_of_lt_of_le h (min_le_right _ _)
  have hA : 0 ≤ availOf height phh := by
    by_contra hA
    push_neg at hA
    have h1 : 0 ≤ (-(availOf height phh)).tdiv ((dfs : Int) + 20) :=
      Int.tdiv_nonneg (by omega) (le_of_lt hL)
    have h2 : (-(availOf height phh)).tdiv ((dfs : Int) + 20) =
        -((availOf height phh).tdiv ((dfs : Int) + 20)) := Int.neg_tdiv _ _
    have : maxRowsOf dfs height phh ≤ 0 := by
      unfold maxRowsOf
      omega
    omega
  have hr : 0 < numRowsOf dfs n height phh := h
  have hrn : numRowsOf dfs n height phh ≤ (n : Int) := min_le_right _ _
  have hlh : lineHeightOf dfs n height phh =
      availOf height phh / numRowsOf dfs n height phh := by
    unfold lineHeightOf
    rw [if_pos hr]
    exact Int.fdiv_eq_ediv _ (le_of_lt hr)
  have hcount : (pySliceLen n (numRowsOf dfs n height phh) : Int) =
      numRowsOf dfs n height phh := by
    unfold pySliceLen
    rw [if_pos (le_of_lt hr)]
    have h1 : (numRowsOf dfs n height phh).toNat ≤ n := by omega
    rw [min_eq_left h1]
    omega
  have hdm := Int.ediv_add_emod (availOf height phh) (numRowsOf dfs n height phh)
  have hsum : rowHeightsSum dfs n height phh =
      availOf height phh - availOf height phh % numRowsOf dfs n height phh := by
    unfold rowHeightsSum
    rw [hcount, hlh]
    omega
  refine ⟨hsum, Int.emod_nonneg _ (by omega), Int.emod_lt_of_pos _ hr, ?_⟩
  rw [hsum]
  constructor
  · intro he
    exact Int.dvd_of_emod_eq_zero (by omega)
  · intro hd
    have := Int.emod_eq_zero_of_dvd hd
    omega

/-- C1 witness: the amended statement instantiated at font size 13, 3
departures, panel height 130, title bar 30 (H = 100, rows = 3): the rows
total 99 = 100 - 100 % 3, the gap is 1 < 3, and 99 = 100 fails exactly as
3 does not divide 100. -/
theorem c1_witness :
    0 < numRowsOf 13 3 130 30 ∧
      (rowHeightsSum 13 3 130 30 =
          availOf 130 30 - availOf 130 30 % numRowsOf 13 3 130 30 ∧
        0 ≤ availOf 130 30 % numRowsOf 13 3 130 30 ∧
        availOf 130 30 % numRowsOf 13 3 130 30 < numRowsOf 13 3 130 30 ∧
        (rowHeightsSum 13 3 130 30 = availOf 130 30 ↔
          numRowsOf 13 3 130 30 ∣ availOf 130 30)) :=
  ⟨by decide, c1_amended 13 3 130 30 (by decide)⟩

/-! ### C2: bus time filter -/

/-- C2: after update, every record in the cached bus list has at least 2
minutes until arrival (reading minutes_until exactly as the filter does,
with dict.get default 0), and the cached tube list is a permutation of
the concatenated tube fetches — no tube record is removed by the time
filter, whatever its minutes value. -/
theorem c2_filter_sound (tubeWest tubeEast busWest busEast : List ArrivalRecord)
    (prev : DeparturesState) :
    (∀ d ∈ ((updateState prev tubeWest tubeEast busWest busEast).1).bus,
        2 ≤ d.minutes_until.getD 0) ∧
      ((updateState prev tubeWest tubeEast busWest busEast).1).tube.Perm
        (tubeWest ++ tubeEast) := by
  constructor
  · intro d hd
    have hmem : d ∈ (busWest ++ busEast).filter busKeep :=
      (pySorted_perm sortKeyD ((busWest ++ busEast).filter busKeep)).mem_iff.mp hd
    have hk := List.of_mem_filter hmem
    simpa [busKeep] using hk
  · exact pySorted_perm sortKeyD (tubeWest ++ tubeEast)

/-- C2 witness: a concrete update whose only bus fetch is a 5-minute
record; the theorem applied to its membership in the resulting bus list. -/
theorem c2_witness : 2 ≤ sampleRecord.minutes_until.getD 0 :=
  (c2_filter_sound [] [] [sampleRecord] [] ⟨[], []⟩).1 sampleRecord (by decide)

/-! ### C3: per-mode sort order -/

/-- C3 counterexample: a source record with no time value does not sort
last. Through the real pipeline, get_arrivals parses the record lacking
timeToStation to minutes_until 0 (not a large sentinel), so after update
it sorts first: with one raw arrival lacking timeToStation and one due in
300 s, the cached tube list is [no-time record, 5-minute record] — the
no-time record is the head, not the last element. -/
theorem c3_counterexample :
    rawNoTime.timeToStation = none ∧
      ((updateState ⟨[], []⟩
          (getArrivals (.ok [rawFiveMin, rawNoTime]) [] "outbound" 20)
          [] [] []).1).tube =
        [parseArrival rawNoTime, parseArrival rawFiveMin] ∧
      parseArrival rawNoTime ≠ parseArrival rawFiveMin := by decide

/-- C3 amended: each cached list is sorted ascending by the update sort
key (minutes_until with dict.get default 999) with stable ties — elements
with any fixed key value keep their source order — but a source record
lacking a time value is parsed with minutes_until 0, so it sorts first,
not last; the 999 sentinel in the sort key is never what places it. -/
theorem c3_amended (tubeWest tubeEast busWest busEast : List ArrivalRecord)
    (prev : DeparturesState) :
    ((updateState prev tubeWest tubeEast busWest busEast).1).tube.Sorted
        (fun a b => sortKeyD a ≤ sortKeyD b) ∧
      ((updateState prev tubeWest tubeEast busWest busEast).1).bus.Sorted
        (fun a b => sortKeyD a ≤ sortKeyD b) ∧
      (∀ k, ((updateState prev tubeWest tubeEast busWest busEast).1).tube.filter
          (fun d => sortKeyD d == k) =
        (tubeWest ++ tubeEast).filter (fun d => sortKeyD d == k)) ∧
      (∀ k, ((updateState prev tubeWest tubeEast busWest busEast).1).bus.filter
          (fun d => sortKeyD d == k) =
        ((busWest ++ busEast).filter busKeep).filter (fun d => sortKeyD d == k)) ∧
      (∀ a : RawArrival, a.timeToStation = none →
        (parseArrival a).minutes_until = some 0) := by
  refine ⟨sorted_pySorted sortKeyD _, sorted_pySorted sortKeyD _,
    fun k => filter_pySorted sortKeyD k _, fun k => filter_pySorted sortKeyD k _,
    fun a ha => ?_⟩
  simp [parseArrival, ha]

/-- C3 witness: the amended parsing clause at the concrete raw arrival
lacking timeToStation. -/
theorem c3_witness : (parseArrival rawNoTime).minutes_until = some 0 :=
  (c3_amended [] [] [] [] ⟨[], []⟩).2.2.2.2 rawNoTime rfl

/-! ### C4: zero-row panel rendering -/

/-- C4 counterexample: a panel of height 40 with title bar 30 leaves 10
pixels of content, too small for one 33-pixel row, so num_rows = 0 with
one departure available — and the rendered ops contain no "No departures"
text at all (the placeholder the claim promises is absent). -/
theorem c4_counterexample :
    numRowsOf defaultCfg.departure_font_size 1 40 30 = 0 ∧
      ([sampleRecord] ≠ ([] : List ArrivalRecord)) ∧
      (renderPanel cwMeas defaultCfg [sampleRecord] "UNDERGROUND"
          0 0 200 40 30 10).all (fun op => !isNoDeparturesText op) = true := by
  decide

/-- C4 amended: when the departure list is non-empty but num_rows = 0, the
panel renders only its title bar and title — zero rows and no placeholder;
the "No departures" placeholder is drawn only when the list is genuinely
empty. -/
theorem c4_amended (measure : Meas) (cfg : TfLConfig)
    (departures : List ArrivalRecord) (title : String)
    (x y width height phh padding : Int)
    (hne : departures ≠ [])
    (hz : numRowsOf cfg.departure_font_size departures.length height phh = 0) :
    renderPanel measure cfg departures title x y width height phh padding =
      panelHeaderOps measure cfg title x y width phh := by
  have h1 : departures.isEmpty = false := by
    simpa [List.isEmpty_iff] using hne
  unfold renderPanel
  rw [h1]
  simp only [Bool.false_eq_true, if_false, hz]
  simp [pySliceTo]

/-- C4 witness: the amended statement at the concrete zero-row panel. -/
theorem c4_witness :
    renderPanel cwMeas defaultCfg [sampleRecord] "BUSES" 0 0 200 40 30 10 =
      panelHeaderOps cwMeas defaultCfg "BUSES" 0 0 200 30 :=
  c4_amended cwMeas defaultCfg [sampleRecord] "BUSES" 0 0 200 40 30 10
    (by decide) (by decide)

/-! ### C5: destination truncation -/

theorem truncCharsFuel_spec (mw : List Char → Int) (maxW : Int) :
    ∀ (fuel : Nat) (s : List Char), s.length ≤ fuel →
      mw (truncCharsFuel mw maxW fuel s) ≤ maxW ∨
        truncCharsFuel mw maxW fuel s = [] := by
  intro fuel
  induction fuel with
  | zero =>
    intro s hs
    right
    have : s.length = 0 := Nat.le_zero.mp hs
    simpa [truncCharsFuel] using List.length_eq_zero.mp this
  | succ f ih =>
    intro s hs
    unfold truncCharsFuel
    by_cases h0 : s.length = 0
    · rw [if_pos h0]
      right
      exact List.length_eq_zero.mp h0
    · rw [if_neg h0]
      by_cases hm : mw s ≤ maxW
      · rw [if_pos hm]
        left
        exact hm
      · rw [if_neg hm]
        apply ih
        have := s.length_dropLast
        omega

/-- C5 counterexample: at row width 100 with padding 10 the available
destination width is max_dest_width = 100 - 70 - 150 - 20 = -140. With a
metric of 10 pixels per character, "Abcdef" is progressively emptied by
the loop and the ellipsis substitution then draws "...", whose measured
width 30 exceeds the available width — the drawn text is wider than the
space, contradicting the claimed guarantee. -/
theorem c5_counterexample :
    truncateDest (fun s => 10 * (s.length : Int)) (maxDestWidth 100 10)
        "Abcdef" = "..." ∧
      ¬ (10 * (("..." : String).length : Int) ≤ maxDestWidth 100 10) := by
  decide

/-- C5 amended: the string retained by the removal loop measures within
the available width or is empty; if any character was removed, the drawn
string is the retained string with its final three characters replaced by
"..." — so it ends in "..." — and otherwise the original is drawn
unchanged. The width bound holds for the retained string only: the
ellipsis substitution happens after the loop and can push the drawn width
back over the available width (always so when the available width is
negative). -/
theorem c5_amended (mw : String → Int) (maxW : Int) (s : String) :
    (mw (truncateLoop mw maxW s) ≤ maxW ∨ truncateLoop mw maxW s = "") ∧
      ((truncateLoop mw maxW s).length < s.length →
        truncateDest mw maxW s = (truncateLoop mw maxW s).dropRight 3 ++ "...") ∧
      (¬ (truncateLoop mw maxW s).length < s.length →
        truncateDest mw maxW s = truncateLoop mw maxW s) := by
  refine ⟨?_, ?_, ?_⟩
  · rcases truncCharsFuel_spec (fun cs => mw (String.mk cs)) maxW
      s.data.length s.data le_rfl with h | h
    · left
      exact h
    · right
      unfold truncateLoop
      rw [h]
  · intro h
    unfold truncateDest
    rw [if_pos h]
  · intro h
    unfold truncateDest
    rw [if_neg h]

/-- C5 witness: with a 1-pixel-per-character metric and 2 pixels
available, "abcd" is cut to "ab" and drawn as "..." (= "ab" minus its
last three characters, plus the ellipsis). -/
theorem c5_witness :
    truncateDest (fun s => (s.length : Int)) 2 "abcd" =
      (truncateLoop (fun s => (s.length : Int)) 2 "abcd").dropRight 3 ++ "..." :=
  (c5_amended (fun s => (s.length : Int)) 2 "abcd").2.1 (by decide)

/-! ### C6: time label formatting -/

/-- C6: the 2-panel time label is exactly "Due" for 0, "1 min" for 1, and
the decimal number followed by " mins" for every other value. -/
theorem c6_time_label (n : Nat) (h0 : n ≠ 0) (h1 : n ≠ 1) :
    formatMinutes 0 = "Due" ∧ formatMinutes 1 = "1 min" ∧
      formatMinutes n = toString n ++ " mins" := by
  refine ⟨by decide, by decide, ?_⟩
  unfold formatMinutes
  rw [if_neg h0, if_neg h1]

/-- C6 witness: the statement at n = 5, giving the literal "5 mins". -/
theorem c6_witness :
    formatMinutes 0 = "Due" ∧ formatMinutes 1 = "1 min" ∧
      formatMinutes 5 = toString 5 ++ " mins" :=
  c6_time_label 5 (by decide) (by decide)

/-! ### C7: compose pass -/

theorem foldl_filter_enabled (modules : List PyModule) (c : Canvas) :
    modules.foldl (fun c m => if m.enabled then (m.render c).1 else c) c =
      (modules.filter (fun m => m.enabled)).foldl (fun c m => (m.render c).1) c := by
  induction modules generalizing c with
  | nil => rfl
  | cons m ms ih =>
    cases h : m.enabled <;> simp [List.filter_cons, h, ih]

/-- C7: compose starts from a fresh canvas of the configured dimensions
with nothing drawn (all background), then is exactly the in-order fold of
render over the enabled modules — a module whose render fails contributes
whatever it drew before failing and the fold continues — and with zero
enabled modules the fresh all-background canvas itself is returned. -/
theorem c7_compose (width height : Nat) (modules : List PyModule) :
    renderModules width height modules =
        (modules.filter (fun m => m.enabled)).foldl
          (fun c m => (m.render c).1) (createCanvas width height) ∧
      (createCanvas width height).ops = [] ∧
      (createCanvas width height).width = width ∧
      (createCanvas width height).height = height ∧
      (modules.filter (fun m => m.enabled) = [] →
        renderModules width height modules = createCanvas width height) := by
  refine ⟨foldl_filter_enabled modules _, rfl, rfl, rfl, fun h => ?_⟩
  unfold renderModules
  rw [foldl_filter_enabled modules (createCanvas width height), h,
    List.foldl_nil]

/-- C7 witness: a single disabled module leaves the fresh canvas
untouched. -/
theorem c7_witness :
    renderModules 2 3 [{ enabled := false, render := fun c => (c, none) }] =
      createCanvas 2 3 :=
  (c7_compose 2 3 [{ enabled := false, render := fun c => (c, none) }]).2.2.2.2 rfl

/-! ### C8: update on an all-empty fetch -/

/-- C8 counterexample: update does not keep the previously rendered state.
Starting from a cache holding one tube record, an update cycle in which
every source yields the empty list overwrites the cache with empty lists —
the cached per-mode lists change. -/
theorem c8_counterexample :
    (updateState ⟨[sampleRecord], []⟩ [] [] [] []).1 =
        (⟨[], []⟩ : DeparturesState) ∧
      (⟨[sampleRecord], []⟩ : DeparturesState) ≠ (⟨[], []⟩ : DeparturesState) := by
  decide

/-- C8 amended: self.departures is refreshed wholesale. When every source
yields the empty list (the client absorbs any transport or parse failure
into an empty result, so no exception reaches update), the cached lists
become empty — the previous contents are discarded, not kept — and update
reports failure. -/
theorem c8_amended (prev : DeparturesState) (e : String) (lineIds : List String)
    (direction : String) (maxResults : Nat) :
    updateState prev [] [] [] [] = ((⟨[], []⟩ : DeparturesState), false) ∧
      getArrivals (.error e) lineIds direction maxResults = [] :=
  ⟨rfl, rfl⟩

/-! ### C9: canvas-not-ready guard -/

/-- C9: each drawing primitive fails with the canvas-not-ready error
exactly when the renderer has no canvas (the state before create_canvas);
create_canvas installs a canvas, and a primitive that succeeds leaves a
canvas installed, so after create_canvas no primitive ever raises that
error. -/
theorem c9_canvas_guard (s : RendererState) (text : String) (pos : Int × Int)
    (fill : Nat) (start stop : Int × Int) (w : Nat)
    (bbox : Int × Int × Int × Int) (outline : Nat) (rfill : Option Nat) :
    ((draw_text s text pos fill = .error .canvasNotReady) ↔ s.image = none) ∧
      ((draw_line s start stop fill w = .error .canvasNotReady) ↔
        s.image = none) ∧
      ((draw_rectangle s bbox outline rfill w = .error .canvasNotReady) ↔
        s.image = none) ∧
      (create_canvas s).image = some (createCanvas s.width s.height) ∧
      (∀ s2, draw_text s text pos fill = .ok s2 → s2.image ≠ none) ∧
      (∀ s2, draw_line s start stop fill w = .ok s2 → s2.image ≠ none) ∧
      (∀ s2, draw_rectangle s bbox outline rfill w = .ok s2 →
        s2.image ≠ none) := by
  rcases s with ⟨w0, h0, img⟩
  cases img <;>
    simp [draw_text, draw_line, draw_rectangle, create_canvas]

/-- C9 witness: on a freshly constructed renderer (no canvas yet),
draw_text raises the canvas-not-ready error. -/
theorem c9_witness :
    draw_text (rendererOf 5 7) "hi" (1, 2) 0 = .error .canvasNotReady :=
  (c9_canvas_guard (rendererOf 5 7) "hi" (1, 2) 0 (0, 0) (3, 4) 1
    (0, 0, 2, 2) 0 none).1.mpr rfl

/-! ### C10: render never propagates -/

/-- C10: TfLDeparturesModule.render returns no exception for any drawing
sink, module state and geometry — the try/except around the whole body
absorbs every failure — and the canvas keeps exactly the calls the body
issued before the first failure (a possibly partially drawn region). -/
theorem c10_render_catches (sink : DrawOp → Option String) (measure : Meas)
    (cfg : TfLConfig) (st : DeparturesState) (nowTime nowDate : String)
    (x y width height : Int) :
    (tflRender sink measure cfg st nowTime nowDate x y width height).2 = none ∧
      (tflRender sink measure cfg st nowTime nowDate x y width height).1 =
        (runOps sink (tflRenderOps measure cfg st nowTime nowDate
          x y width height)).1 :=
  ⟨rfl, rfl⟩

end TflPi
